import Mathlib

/-!
Shallow embedding of the gesture-controlled tree visualization
(`tamikip/tree`): the gesture classifier (`HandController.processResults`),
the mode state machine and photo upload handler (`App.handleHandUpdate`,
`App.handlePhotoUpload`), the active-photo selection effect (`PhotoCloud`),
and the exponential damping step driving the per-frame particle animation
(`Ornaments`).  Machine numbers (JS doubles) are modelled as real numbers;
`Date.now()` timestamps as integers (milliseconds).
-/

namespace Tree

/-- `AppState` enum from `types.ts`. -/
inductive AppState
  | TREE
  | SCATTERED
  | ZOOM
deriving DecidableEq, Repr

/-- `GestureType` enum from `types.ts`. -/
inductive GestureType
  | NONE
  | FIST
  | OPEN_HAND
  | PINCH
deriving DecidableEq, Repr

/-- `HandData` from `types.ts`: gesture plus continuous pose signals. -/
structure HandData where
  gesture : GestureType
  x : ℝ
  y : ℝ
  tiltX : ℝ
  tiltY : ℝ

/-- `PhotoData` from `types.ts`.  The `aspectRatio` field of the source is
named `aspect` here. -/
structure PhotoData where
  id : String
  url : String
  aspect : ℝ

/-- The state owned by the `App` component: `appState`, the `photos` list,
the last delivered `handData`, and the `lastStateChange` ref (ms). -/
structure AppModel where
  appState : AppState
  photos : List PhotoData
  handData : HandData
  lastStateChange : ℤ

/-- Initial `App` state: `useState(AppState.TREE)`, empty photo list,
neutral hand data, `lastStateChange = 0`. -/
def initialModel : AppModel :=
  { appState := AppState.TREE
    photos := []
    handData := { gesture := GestureType.NONE, x := 0.5, y := 0.5, tiltX := 0, tiltY := 0 }
    lastStateChange := 0 }

/-- `App.handleHandUpdate`: stores the incoming `HandData`, then runs the
state-machine rules in source order — FIST→TREE with no debounce and an
early return; a 500 ms debounce gate; OPEN_HAND→SCATTERED from TREE;
PINCH→ZOOM from SCATTERED when photos exist; OPEN_HAND→SCATTERED from
ZOOM. -/
def handleHandUpdate (data : HandData) (now : ℤ) (s : AppModel) : AppModel :=
  let s1 : AppModel := { s with handData := data }
  let timeSinceChange : ℤ := now - s1.lastStateChange
  if data.gesture = GestureType.FIST ∧ s1.appState ≠ AppState.TREE then
    { s1 with appState := AppState.TREE, lastStateChange := now }
  else if timeSinceChange < 500 then s1
  else if data.gesture = GestureType.OPEN_HAND ∧ s1.appState = AppState.TREE then
    { s1 with appState := AppState.SCATTERED, lastStateChange := now }
  else if data.gesture = GestureType.PINCH ∧ s1.appState = AppState.SCATTERED then
    if s1.photos.length > 0 then
      { s1 with appState := AppState.ZOOM, lastStateChange := now }
    else s1
  else if data.gesture = GestureType.OPEN_HAND ∧ s1.appState = AppState.ZOOM then
    { s1 with appState := AppState.SCATTERED, lastStateChange := now }
  else s1

/-- `App.handlePhotoUpload`: when the event carries a file list (`none`
models a null `e.target.files`), the already-decoded new photos are
appended to `photos` and, if the mode is TREE, the mode is forced to
SCATTERED.  `lastStateChange` is not touched. -/
def handlePhotoUpload (files : Option (List PhotoData)) (s : AppModel) : AppModel :=
  match files with
  | none => s
  | some newPhotos =>
      { s with
        photos := s.photos ++ newPhotos
        appState := if s.appState = AppState.TREE then AppState.SCATTERED else s.appState }

/-- A FIST `HandData` sample used in concrete scenarios. -/
def fistData : HandData :=
  { gesture := GestureType.FIST, x := 0.5, y := 0.5, tiltX := 0, tiltY := 0 }

/-- An OPEN_HAND `HandData` sample used in concrete scenarios. -/
def openHandData : HandData :=
  { gesture := GestureType.OPEN_HAND, x := 0.5, y := 0.5, tiltX := 0, tiltY := 0 }

/-- A PINCH `HandData` sample used in concrete scenarios. -/
def pinchData : HandData :=
  { gesture := GestureType.PINCH, x := 0.5, y := 0.5, tiltX := 0, tiltY := 0 }

/-- A concrete photo used in concrete scenarios. -/
def samplePhoto : PhotoData := { id := "p1", url := "blob:p1", aspect := 1 }

/-! ## Gesture classifier (`HandController.processResults`) -/

/-- One MediaPipe landmark: a keypoint with `x`, `y`, `z` coordinates.
Screen landmarks also carry a `z`, unused by the 2D distance. -/
structure Landmark where
  x : ℝ
  y : ℝ
  z : ℝ

/-- A detected hand: 21 indexed landmarks (0 = wrist, 4/8/12/16/20 =
fingertips, 5 = index MCP, 17 = pinky MCP). -/
def Hand : Type := Fin 21 → Landmark

/-- `HandLandmarkerResult` as consumed by `processResults`: zero or one
tracked hand (`numHands: 1`), with the 3D world landmarks optionally
present alongside the 2D screen landmarks. -/
structure HandLandmarkerResult where
  landmarks : Option Hand
  worldLandmarks : Option Hand

/-- The `dist3D` helper of `processResults`:
`Math.sqrt((p1.x-p2.x)^2 + (p1.y-p2.y)^2 + (p1.z-p2.z)^2)`. -/
noncomputable def dist3D (p1 p2 : Landmark) : ℝ :=
  Real.sqrt ((p1.x - p2.x) ^ 2 + (p1.y - p2.y) ^ 2 + (p1.z - p2.z) ^ 2)

/-- The `dist2D` helper of `processResults`:
`Math.sqrt((p1.x-p2.x)^2 + (p1.y-p2.y)^2)`. -/
noncomputable def dist2D (p1 p2 : Landmark) : ℝ :=
  Real.sqrt ((p1.x - p2.x) ^ 2 + (p1.y - p2.y) ^ 2)

/-- `avgDistToWrist` in the 3D branch: mean 3D distance from the four
non-thumb fingertips (indices 8, 12, 16, 20) to the wrist (index 0). -/
noncomputable def avgDistToWrist3D (wl : Hand) : ℝ :=
  (dist3D (wl 8) (wl 0) + dist3D (wl 12) (wl 0) +
   dist3D (wl 16) (wl 0) + dist3D (wl 20) (wl 0)) / 4

/-- `pinchDist` in the 3D branch: 3D distance from thumb tip (4) to index
tip (8). -/
noncomputable def pinchDist3D (wl : Hand) : ℝ :=
  dist3D (wl 4) (wl 8)

/-- `avgDistToWrist` in the 2D fallback branch. -/
noncomputable def avgDistToWrist2D (landmarks : Hand) : ℝ :=
  (dist2D (landmarks 8) (landmarks 0) + dist2D (landmarks 12) (landmarks 0) +
   dist2D (landmarks 16) (landmarks 0) + dist2D (landmarks 20) (landmarks 0)) / 4

/-- The 3D-branch priority chain of `processResults`: FIST if
`avgDistToWrist < 0.085`, else PINCH if `pinchDist < 0.035`, else
OPEN_HAND if `avgDistToWrist > 0.11`, else NONE. -/
noncomputable def classifyGesture3D (wl : Hand) : GestureType :=
  if avgDistToWrist3D wl < 0.085 then GestureType.FIST
  else if pinchDist3D wl < 0.035 then GestureType.PINCH
  else if avgDistToWrist3D wl > 0.11 then GestureType.OPEN_HAND
  else GestureType.NONE

/-- The 2D fallback priority chain of `processResults`, with thresholds
0.3 / 0.05 / 0.4. -/
noncomputable def classifyGesture2D (landmarks : Hand) : GestureType :=
  if avgDistToWrist2D landmarks < 0.3 then GestureType.FIST
  else if dist2D (landmarks 4) (landmarks 8) < 0.05 then GestureType.PINCH
  else if avgDistToWrist2D landmarks > 0.4 then GestureType.OPEN_HAND
  else GestureType.NONE

/-- `HandController.processResults`: defaults (NONE, 0.5, 0.5, 0, 0) when
no hand is detected; otherwise the palm-center pose from the 2D screen
landmarks (x mirrored) plus the gesture from the 3D world landmarks when
available, falling back to the 2D landmarks otherwise. -/
noncomputable def processResults (results : HandLandmarkerResult) : HandData :=
  match results.landmarks with
  | none =>
      { gesture := GestureType.NONE, x := 0.5, y := 0.5, tiltX := 0, tiltY := 0 }
  | some landmarks =>
      let wrist := landmarks 0
      let indexMCP := landmarks 5
      let pinkyMCP := landmarks 17
      let palmCenterX := (wrist.x + indexMCP.x + pinkyMCP.x) / 3
      let palmCenterY := (wrist.y + indexMCP.y + pinkyMCP.y) / 3
      let gesture :=
        match results.worldLandmarks with
        | some wl => classifyGesture3D wl
        | none => classifyGesture2D landmarks
      { gesture := gesture
        x := 1 - palmCenterX
        y := palmCenterY
        tiltX := (indexMCP.x - pinkyMCP.x) * 10
        tiltY := (wrist.y - indexMCP.y) * 5 }

/-- First-match evaluation of an ordered rule list, defaulting to NONE:
the spec's "exact priority order (first match wins)". -/
def firstMatch : List (Bool × GestureType) → GestureType
  | [] => GestureType.NONE
  | (c, g) :: rest => if c then g else firstMatch rest

/-- Modelled from the spec: the gesture decision as a priority-ordered
rule list over the two distance statistics — FIST when
`avgFist < tFist`, else PINCH when `pinch < tPinch`, else OPEN_HAND when
`avgFist > tOpen`, else NONE. -/
noncomputable def specGestureRules (avgFist pinch tFist tPinch tOpen : ℝ) : GestureType :=
  firstMatch
    [(decide (avgFist < tFist), GestureType.FIST),
     (decide (pinch < tPinch), GestureType.PINCH),
     (decide (avgFist > tOpen), GestureType.OPEN_HAND)]

/-- A synthetic world-landmark hand: the four non-thumb fingertips sit at
distance 0.2 from the wrist (origin) along the x axis, and the thumb tip
at distance 0.02 from the index tip. -/
noncomputable def pinchHand : Hand := fun i =>
  if i.val = 4 then { x := 0.22, y := 0, z := 0 }
  else if i.val = 8 ∨ i.val = 12 ∨ i.val = 16 ∨ i.val = 20 then { x := 0.2, y := 0, z := 0 }
  else { x := 0, y := 0, z := 0 }

/-- An all-zero hand used as the 2D screen-landmark component of
synthetic inputs. -/
noncomputable def zeroHand : Hand := fun _ => { x := 0, y := 0, z := 0 }

/-! ## Animation driver: damping (`Ornaments.useFrame`) -/

/-- Modelled from the spec: the exponential damping step used by the
animation driver (`THREE.MathUtils.damp` in `Ornaments`, the `maath`
easing helpers in `PhotoCloud` — both external library code).  The spec's
"standard exponential-decay-toward-target formulation":
`lerp(x, y, 1 - exp(-lambda * dt))`. -/
noncomputable def damp (x y lambda dt : ℝ) : ℝ :=
  x + (y - x) * (1 - Real.exp (-lambda * dt))

/-- A 3D vector, for particle positions. -/
structure Vec3 where
  x : ℝ
  y : ℝ
  z : ℝ

/-- Component-wise damping of a position toward a target. -/
noncomputable def dampVec (cur target : Vec3) (lambda dt : ℝ) : Vec3 :=
  { x := damp cur.x target.x lambda dt
    y := damp cur.y target.y lambda dt
    z := damp cur.z target.z lambda dt }

/-- The additive per-frame jitter of `Ornaments.useFrame`:
`(sin(time + i), cos(time * 0.8 + i), sin(time * 0.5 + i))` scaled by the
mode-dependent `noiseAmt`. -/
noncomputable def ornamentNoise (isTree : Bool) (time : ℝ) (i : ℕ) : Vec3 :=
  let noiseAmt : ℝ := if isTree then 0.02 else 0.2
  { x := Real.sin (time + i) * noiseAmt
    y := Real.cos (time * 0.8 + i) * noiseAmt
    z := Real.sin (time * 0.5 + i) * noiseAmt }

/-- One particle's per-frame update in `Ornaments.useFrame`: pick the
mode-dependent target and damping rate (12 for TREE, 2 otherwise), damp
the persistent current position toward it, then add the periodic jitter
to produce the rendered position.  Returns (new stored current position,
rendered position). -/
noncomputable def ornamentFrame (isTree : Bool) (cur posTree posScatter : Vec3)
    (time : ℝ) (i : ℕ) (delta : ℝ) : Vec3 × Vec3 :=
  let target : Vec3 := if isTree then posTree else posScatter
  let lambda : ℝ := if isTree then 12 else 2
  let next : Vec3 := dampVec cur target lambda delta
  let noise : Vec3 := ornamentNoise isTree time i
  (next, { x := next.x + noise.x, y := next.y + noise.y, z := next.z + noise.z })

/-! ## Active photo selection (`PhotoCloud`) -/

/-- The body of the `PhotoCloud` effect: when the mode is ZOOM and photos
exist, pick `Math.floor(Math.random() * photos.length)` (the random draw
`rand : ℚ`, `0 ≤ rand < 1`, is an external input); otherwise −1
("none"). -/
def nextActivePhotoIndex (mode : AppState) (photoCount : ℕ) (rand : ℚ) : ℤ :=
  if mode = AppState.ZOOM ∧ photoCount > 0 then Int.floor (rand * photoCount) else -1

/-- One run opportunity of the `PhotoCloud` effect, whose dependency list
is `[appState, photos.length]`: React re-runs the effect body exactly when
the dependency pair changed since the previous render, and otherwise
leaves `activePhotoIndex` untouched. -/
def photoEffectStep (prevDeps deps : AppState × ℕ) (rand : ℚ) (idx : ℤ) : ℤ :=
  if deps ≠ prevDeps then nextActivePhotoIndex deps.1 deps.2 rand else idx

/-- A second concrete photo. -/
def samplePhoto2 : PhotoData := { id := "p2", url := "blob:p2", aspect := 1 }

/-- A third concrete photo. -/
def samplePhoto3 : PhotoData := { id := "p3", url := "blob:p3", aspect := 1 }

/-- The app model sitting in SCATTERED mode with no photos. -/
def scatterModel : AppModel := { initialModel with appState := AppState.SCATTERED }

/-- The app model sitting in SCATTERED mode with one photo. -/
def scatterPhotoModel : AppModel :=
  { initialModel with appState := AppState.SCATTERED, photos := [samplePhoto] }

/-! ## Theorems -/

/-- Claim C2: with gesture FIST, when the mode is not TREE the call sets
the mode to TREE and the clock to `now` (no debounce, no other rule runs
— the result is exactly the FIST-rule state); when the mode is already
TREE, both the mode and the clock are left unchanged. -/
theorem fist_rule_spec :
    (∀ (data : HandData) (now : ℤ) (s : AppModel),
        data.gesture = GestureType.FIST → s.appState ≠ AppState.TREE →
        handleHandUpdate data now s =
          { s with handData := data, appState := AppState.TREE, lastStateChange := now })
    ∧ (∀ (data : HandData) (now : ℤ) (s : AppModel),
        data.gesture = GestureType.FIST → s.appState = AppState.TREE →
        (handleHandUpdate data now s).appState = s.appState ∧
        (handleHandUpdate data now s).lastStateChange = s.lastStateChange) := by
  constructor
  · intro data now s hg hs
    simp [handleHandUpdate, hg, hs]
  · intro data now s hg hs
    by_cases hd : now - s.lastStateChange < 500 <;>
      simp [handleHandUpdate, hg, hs, hd]

/-- Witness for `fist_rule_spec`: a FIST event from SCATTERED snaps to
TREE with the clock set, even 100 ms after the last transition; a FIST
event while already in TREE changes neither mode nor clock. -/
theorem fist_rule_spec_witness :
    handleHandUpdate fistData 100 scatterModel =
      { scatterModel with
        handData := fistData
        appState := AppState.TREE
        lastStateChange := 100 } ∧
    (handleHandUpdate fistData 100 initialModel).appState = initialModel.appState ∧
    (handleHandUpdate fistData 100 initialModel).lastStateChange =
      initialModel.lastStateChange := by
  refine ⟨fist_rule_spec.1 fistData 100 scatterModel rfl (by decide), ?_, ?_⟩
  · exact (fist_rule_spec.2 fistData 100 initialModel rfl rfl).1
  · exact (fist_rule_spec.2 fistData 100 initialModel rfl rfl).2

/-- Claim C3: whenever the FIST rule does not fire and less than 500 ms
have passed since the last transition, the call changes neither the mode
nor the clock; concretely, two OPEN_HAND events 100 ms apart starting in
TREE produce exactly one transition, to SCATTERED. -/
theorem debounce_gate_spec :
    (∀ (data : HandData) (now : ℤ) (s : AppModel),
        ¬(data.gesture = GestureType.FIST ∧ s.appState ≠ AppState.TREE) →
        now - s.lastStateChange < 500 →
        (handleHandUpdate data now s).appState = s.appState ∧
        (handleHandUpdate data now s).lastStateChange = s.lastStateChange)
    ∧ handleHandUpdate openHandData 700 (handleHandUpdate openHandData 600 initialModel) =
        { initialModel with
          handData := openHandData
          appState := AppState.SCATTERED
          lastStateChange := 600 } := by
  constructor
  · intro data now s hf hd
    simp only [handleHandUpdate]
    rw [if_neg (by simpa using hf), if_pos hd]
    exact ⟨rfl, rfl⟩
  · rfl

/-- Witness for `debounce_gate_spec`: an OPEN_HAND event 100 ms after the
session start (clock 0) is discarded by the gate. -/
theorem debounce_gate_spec_witness :
    (handleHandUpdate openHandData 100 initialModel).appState = initialModel.appState ∧
    (handleHandUpdate openHandData 100 initialModel).lastStateChange =
      initialModel.lastStateChange :=
  debounce_gate_spec.1 openHandData 100 initialModel (by decide) (by decide)

/-- Claim C4: a PINCH in SCATTERED mode with the debounce window elapsed
moves to ZOOM with the clock updated when photos exist, and changes
neither mode nor clock when the photo count is zero (silently ignored). -/
theorem pinch_rule_spec :
    ∀ (data : HandData) (now : ℤ) (s : AppModel),
      data.gesture = GestureType.PINCH → s.appState = AppState.SCATTERED →
      ¬(now - s.lastStateChange < 500) →
      (s.photos.length > 0 →
        handleHandUpdate data now s =
          { s with handData := data, appState := AppState.ZOOM, lastStateChange := now })
      ∧ (s.photos.length = 0 →
        (handleHandUpdate data now s).appState = s.appState ∧
        (handleHandUpdate data now s).lastStateChange = s.lastStateChange) := by
  intro data now s hg hs hd
  constructor
  · intro hp
    simp [handleHandUpdate, hg, hs, hd, hp]
  · intro hp
    simp [handleHandUpdate, hg, hs, hd, hp]

/-- Witness for `pinch_rule_spec`: from SCATTERED at time 600 (clock 0),
PINCH with one photo yields ZOOM; PINCH with no photos leaves mode and
clock unchanged. -/
theorem pinch_rule_spec_witness :
    handleHandUpdate pinchData 600 scatterPhotoModel =
      { scatterPhotoModel with
        handData := pinchData
        appState := AppState.ZOOM
        lastStateChange := 600 } ∧
    (handleHandUpdate pinchData 600 scatterModel).appState = scatterModel.appState ∧
    (handleHandUpdate pinchData 600 scatterModel).lastStateChange =
      scatterModel.lastStateChange := by
  refine ⟨(pinch_rule_spec pinchData 600 scatterPhotoModel rfl rfl (by decide)).1 (by decide),
    ?_, ?_⟩
  · exact ((pinch_rule_spec pinchData 600 scatterModel rfl rfl (by decide)).2 rfl).1
  · exact ((pinch_rule_spec pinchData 600 scatterModel rfl rfl (by decide)).2 rfl).2

/-- Claim C5: uploading one or more photos while in TREE appends them and
forces the mode to SCATTERED in the same operation; uploads while in
SCATTERED or ZOOM leave the mode unchanged; uploading 3 photos from the
initial TREE state yields SCATTERED with photo count 3. -/
theorem photo_upload_spec :
    (∀ (newPhotos : List PhotoData) (s : AppModel),
        newPhotos ≠ [] → s.appState = AppState.TREE →
        (handlePhotoUpload (some newPhotos) s).appState = AppState.SCATTERED ∧
        (handlePhotoUpload (some newPhotos) s).photos = s.photos ++ newPhotos)
    ∧ (∀ (newPhotos : List PhotoData) (s : AppModel),
        s.appState = AppState.SCATTERED ∨ s.appState = AppState.ZOOM →
        (handlePhotoUpload (some newPhotos) s).appState = s.appState)
    ∧ ((handlePhotoUpload (some [samplePhoto, samplePhoto2, samplePhoto3])
          initialModel).appState = AppState.SCATTERED ∧
       (handlePhotoUpload (some [samplePhoto, samplePhoto2, samplePhoto3])
          initialModel).photos.length = 3) := by
  refine ⟨?_, ?_, by constructor <;> rfl⟩
  · intro newPhotos s _ hs
    simp [handlePhotoUpload, hs]
  · intro newPhotos s hs
    rcases hs with hs | hs <;> simp [handlePhotoUpload, hs]

/-- Witness for `photo_upload_spec`: one photo uploaded from the initial
TREE state lands in SCATTERED with the photo appended, while an upload in
SCATTERED leaves the mode alone. -/
theorem photo_upload_spec_witness :
    ((handlePhotoUpload (some [samplePhoto]) initialModel).appState =
        AppState.SCATTERED ∧
      (handlePhotoUpload (some [samplePhoto]) initialModel).photos =
        initialModel.photos ++ [samplePhoto]) ∧
    (handlePhotoUpload (some [samplePhoto]) scatterModel).appState =
      scatterModel.appState := by
  refine ⟨photo_upload_spec.1 [samplePhoto] initialModel (List.cons_ne_nil _ _) rfl, ?_⟩
  exact photo_upload_spec.2.1 [samplePhoto] scatterModel (Or.inl rfl)

/-- Claim C10: a photo upload never touches the last-transition clock, so
the debounce gate of any later gesture call is evaluated against the last
gesture-induced transition; concretely, an upload from the initial TREE
state does not suppress a PINCH 600 ms after session start, which reaches
ZOOM. -/
theorem upload_clock_spec :
    (∀ (files : Option (List PhotoData)) (s : AppModel),
        (handlePhotoUpload files s).lastStateChange = s.lastStateChange)
    ∧ (∀ (files : Option (List PhotoData)) (s : AppModel) (now : ℤ),
        (now - (handlePhotoUpload files s).lastStateChange < 500 ↔
          now - s.lastStateChange < 500))
    ∧ (handleHandUpdate pinchData 600
        (handlePhotoUpload (some [samplePhoto]) initialModel)).appState =
        AppState.ZOOM := by
  refine ⟨?_, ?_, rfl⟩
  · intro files s
    cases files <;> rfl
  · intro files s now
    cases files <;> rfl

/-- Claim C6: with no hand detected, the classifier returns gesture NONE
with the neutral pose (0.5, 0.5, 0, 0), whatever the world-landmark
field holds. -/
theorem no_hand_neutral_spec :
    ∀ (w : Option Hand),
      processResults { landmarks := none, worldLandmarks := w } =
        { gesture := GestureType.NONE, x := 0.5, y := 0.5, tiltX := 0, tiltY := 0 } := by
  intro w
  rfl

/-- Claim C7: the exponential damping step is invariant under splitting a
time step (applying it with `t1` then `t2` equals one application with
`t1 + t2`), and with a positive rate it converges to the target as
elapsed time tends to infinity. -/
theorem damp_spec :
    (∀ (x y lambda t1 t2 : ℝ), 0 < t1 → 0 < t2 →
        damp (damp x y lambda t1) y lambda t2 = damp x y lambda (t1 + t2))
    ∧ (∀ (x y lambda : ℝ), 0 < lambda →
        Filter.Tendsto (fun t => damp x y lambda t) Filter.atTop (nhds y)) := by
  constructor
  · intro x y lambda t1 t2 _ _
    simp only [damp]
    rw [show -lambda * (t1 + t2) = -lambda * t1 + -lambda * t2 by ring, Real.exp_add]
    ring
  · intro x y lambda hl
    have hmul : Filter.Tendsto (fun t : ℝ => -lambda * t) Filter.atTop Filter.atBot := by
      have h1 : Filter.Tendsto (fun t : ℝ => lambda * t) Filter.atTop Filter.atTop :=
        Filter.Tendsto.const_mul_atTop hl Filter.tendsto_id
      have h2 := Filter.tendsto_neg_atTop_atBot.comp h1
      simpa only [Function.comp_def, neg_mul] using h2
    have hexp : Filter.Tendsto (fun t : ℝ => Real.exp (-lambda * t))
        Filter.atTop (nhds 0) := Real.tendsto_exp_atBot.comp hmul
    have hlim : Filter.Tendsto (fun t : ℝ => x + (y - x) * (1 - Real.exp (-lambda * t)))
        Filter.atTop (nhds (x + (y - x) * (1 - 0))) :=
      Filter.Tendsto.const_add _ (Filter.Tendsto.const_mul _ (tendsto_const_nhds.sub hexp))
    simp only [damp]
    convert hlim using 2
    ring

/-- Witness for `damp_spec`: at rate 1, stepping 0 toward 1 by 1 s twice
equals one 2 s step, and the step converges to the target 1. -/
theorem damp_spec_witness :
    damp (damp 0 1 1 1) 1 1 1 = damp 0 1 1 (1 + 1) ∧
    Filter.Tendsto (fun t => damp 0 1 1 t) Filter.atTop (nhds 1) :=
  ⟨damp_spec.1 0 1 1 1 1 (by norm_num) (by norm_num), damp_spec.2 0 1 1 (by norm_num)⟩

/-- Claim C9: in each particle frame update the stored buffer is exactly
the damping of the previous buffer toward the mode target (rate 12 in
TREE, 2 otherwise); it does not depend on the elapsed time driving the
jitter, and the jitter (amplitude 0.02 in TREE, 0.2 otherwise) appears
only in the rendered output, added on top of the stored buffer. -/
theorem ornament_frame_spec :
    ∀ (isTree : Bool) (cur posTree posScatter : Vec3) (time : ℝ) (i : ℕ) (delta : ℝ),
      (ornamentFrame isTree cur posTree posScatter time i delta).1 =
        dampVec cur (if isTree then posTree else posScatter)
          (if isTree then 12 else 2) delta
      ∧ (∀ time2 : ℝ,
          (ornamentFrame isTree cur posTree posScatter time i delta).1 =
            (ornamentFrame isTree cur posTree posScatter time2 i delta).1)
      ∧ (ornamentFrame isTree cur posTree posScatter time i delta).2 =
          { x := (ornamentFrame isTree cur posTree posScatter time i delta).1.x +
              (ornamentNoise isTree time i).x
            y := (ornamentFrame isTree cur posTree posScatter time i delta).1.y +
              (ornamentNoise isTree time i).y
            z := (ornamentFrame isTree cur posTree posScatter time i delta).1.z +
              (ornamentNoise isTree time i).z } := by
  intro isTree cur posTree posScatter time i delta
  exact ⟨rfl, fun _ => rfl, rfl⟩

/-- Claim C1: for a detected hand, the gesture equals the first matching
rule of the priority-ordered list — 3D thresholds 0.085 / 0.035 / 0.11
when world landmarks are present, 2D thresholds 0.3 / 0.05 / 0.4
otherwise — and the synthetic hand with mean fingertip-to-wrist distance
0.2 and thumb-index distance 0.02 classifies as PINCH, not FIST. -/
theorem classifier_priority_spec :
    (∀ (lm wl : Hand),
        (processResults { landmarks := some lm, worldLandmarks := some wl }).gesture =
          specGestureRules (avgDistToWrist3D wl) (pinchDist3D wl) 0.085 0.035 0.11)
    ∧ (∀ lm : Hand,
        (processResults { landmarks := some lm, worldLandmarks := none }).gesture =
          specGestureRules (avgDistToWrist2D lm) (dist2D (lm 4) (lm 8)) 0.3 0.05 0.4)
    ∧ (processResults
        { landmarks := some zeroHand, worldLandmarks := some pinchHand }).gesture =
        GestureType.PINCH := by
  refine ⟨?_, ?_, ?_⟩
  · intro lm wl
    show classifyGesture3D wl =
      specGestureRules (avgDistToWrist3D wl) (pinchDist3D wl) 0.085 0.035 0.11
    simp only [classifyGesture3D, specGestureRules, firstMatch]
    by_cases h1 : avgDistToWrist3D wl < 0.085
    · simp [h1]
    · by_cases h2 : pinchDist3D wl < 0.035
      · simp [h1, h2]
      · by_cases h3 : avgDistToWrist3D wl > 0.11 <;> simp [h1, h2, h3]
  · intro lm
    show classifyGesture2D lm =
      specGestureRules (avgDistToWrist2D lm) (dist2D (lm 4) (lm 8)) 0.3 0.05 0.4
    simp only [classifyGesture2D, specGestureRules, firstMatch]
    by_cases h1 : avgDistToWrist2D lm < 0.3
    · simp [h1]
    · by_cases h2 : dist2D (lm 4) (lm 8) < 0.05
      · simp [h1, h2]
      · by_cases h3 : avgDistToWrist2D lm > 0.4 <;> simp [h1, h2, h3]
  · show classifyGesture3D pinchHand = GestureType.PINCH
    have e0 : pinchHand 0 = { x := 0, y := 0, z := 0 } := rfl
    have e4 : pinchHand 4 = { x := 0.22, y := 0, z := 0 } := rfl
    have e8 : pinchHand 8 = { x := 0.2, y := 0, z := 0 } := rfl
    have e12 : pinchHand 12 = { x := 0.2, y := 0, z := 0 } := rfl
    have e16 : pinchHand 16 = { x := 0.2, y := 0, z := 0 } := rfl
    have e20 : pinchHand 20 = { x := 0.2, y := 0, z := 0 } := rfl
    have keyA : Real.sqrt (((0.2 : ℝ) - 0) ^ 2 + ((0 : ℝ) - 0) ^ 2 + ((0 : ℝ) - 0) ^ 2)
        = 0.2 := by
      rw [show ((0.2 : ℝ) - 0) ^ 2 + ((0 : ℝ) - 0) ^ 2 + ((0 : ℝ) - 0) ^ 2 = (0.2 : ℝ) ^ 2
        by norm_num]
      exact Real.sqrt_sq (by norm_num)
    have keyP : Real.sqrt (((0.22 : ℝ) - 0.2) ^ 2 + ((0 : ℝ) - 0) ^ 2 + ((0 : ℝ) - 0) ^ 2)
        = 0.02 := by
      rw [show ((0.22 : ℝ) - 0.2) ^ 2 + ((0 : ℝ) - 0) ^ 2 + ((0 : ℝ) - 0) ^ 2 = (0.02 : ℝ) ^ 2
        by norm_num]
      exact Real.sqrt_sq (by norm_num)
    have hA : avgDistToWrist3D pinchHand = 0.2 := by
      simp only [avgDistToWrist3D, dist3D, e0, e8, e12, e16, e20]
      rw [keyA]
      norm_num
    have hP : pinchDist3D pinchHand = 0.02 := by
      simp only [pinchDist3D, dist3D, e4, e8]
      exact keyP
    simp only [classifyGesture3D, hA, hP]
    rw [if_neg (by norm_num), if_pos (by norm_num)]

/-- The claim that the active photo selection changes only on entry into
or exit from ZOOM fails: while staying in ZOOM, a photo-count change
(an upload during ZOOM) re-runs the effect, whose dependency list is
`[appState, photos.length]`, and re-randomizes the selection — here from
index 0 to index 1 with the mode ZOOM on both sides of the step. -/
theorem photo_effect_counterexample :
    photoEffectStep (AppState.ZOOM, 1) (AppState.ZOOM, 2) (3 / 4 : ℚ) 0 = 1 ∧
    (AppState.ZOOM, (1 : ℕ)).1 = AppState.ZOOM ∧
    (AppState.ZOOM, (2 : ℕ)).1 = AppState.ZOOM ∧ (1 : ℤ) ≠ 0 := by
  refine ⟨?_, rfl, rfl, by decide⟩
  rw [photoEffectStep, if_pos (by decide)]
  rw [nextActivePhotoIndex, if_pos (by exact ⟨rfl, by decide⟩)]
  norm_num

/-- Claim C8 (amended): the selection is untouched while the effect
dependencies (mode, photo count) are unchanged; whenever they change with
the new mode ZOOM and at least one photo — on entry into ZOOM, but also
when the photo count changes during ZOOM — it is set to
`floor(rand * count)`, a valid index when `0 ≤ rand < 1`; whenever they
change otherwise (in particular on exit from ZOOM) it is cleared to −1. -/
theorem photo_effect_amended_spec :
    (∀ (prevDeps deps : AppState × ℕ) (rand : ℚ) (idx : ℤ),
        deps = prevDeps → photoEffectStep prevDeps deps rand idx = idx)
    ∧ (∀ (prevDeps deps : AppState × ℕ) (rand : ℚ) (idx : ℤ),
        deps ≠ prevDeps → deps.1 = AppState.ZOOM → 0 < deps.2 →
        photoEffectStep prevDeps deps rand idx = Int.floor (rand * deps.2) ∧
        (0 ≤ rand → rand < 1 →
          0 ≤ photoEffectStep prevDeps deps rand idx ∧
          photoEffectStep prevDeps deps rand idx < deps.2))
    ∧ (∀ (prevDeps deps : AppState × ℕ) (rand : ℚ) (idx : ℤ),
        deps ≠ prevDeps → ¬(deps.1 = AppState.ZOOM ∧ 0 < deps.2) →
        photoEffectStep prevDeps deps rand idx = -1) := by
  refine ⟨?_, ?_, ?_⟩
  · intro prevDeps deps rand idx h
    simp [photoEffectStep, h]
  · intro prevDeps deps rand idx hne hz hc
    have hstep : photoEffectStep prevDeps deps rand idx = Int.floor (rand * deps.2) := by
      simp [photoEffectStep, nextActivePhotoIndex, hne, hz, hc]
    refine ⟨hstep, ?_⟩
    intro hr0 hr1
    rw [hstep]
    have hcq : (0 : ℚ) < (deps.2 : ℚ) := by exact_mod_cast hc
    constructor
    · exact Int.floor_nonneg.mpr (mul_nonneg hr0 hcq.le)
    · have hlt : rand * (deps.2 : ℚ) < (deps.2 : ℚ) := by
        calc rand * (deps.2 : ℚ) < 1 * (deps.2 : ℚ) :=
              mul_lt_mul_of_pos_right hr1 hcq
          _ = (deps.2 : ℚ) := one_mul _
      have := Int.floor_lt.mpr (by exact_mod_cast hlt)
      exact_mod_cast this
  · intro prevDeps deps rand idx hne hno
    simp only [photoEffectStep, nextActivePhotoIndex]
    rw [if_pos hne, if_neg hno]

/-- Witness for `photo_effect_amended_spec`: an unchanged dependency pair
leaves the selection alone; entering ZOOM with one photo and draw 1/2
selects index 0; leaving ZOOM clears the selection to −1. -/
theorem photo_effect_amended_spec_witness :
    photoEffectStep (AppState.SCATTERED, 1) (AppState.SCATTERED, 1) (1 / 2) 5 = 5 ∧
    photoEffectStep (AppState.SCATTERED, 1) (AppState.ZOOM, 1) (1 / 2) (-1) =
      Int.floor ((1 / 2 : ℚ) * ((1 : ℕ) : ℚ)) ∧
    photoEffectStep (AppState.ZOOM, 1) (AppState.SCATTERED, 1) (1 / 2) 0 = -1 := by
  refine ⟨photo_effect_amended_spec.1 _ _ _ _ rfl, ?_, ?_⟩
  · exact (photo_effect_amended_spec.2.1 (AppState.SCATTERED, 1) (AppState.ZOOM, 1)
      (1 / 2) (-1) (by decide) rfl (by decide)).1
  · exact photo_effect_amended_spec.2.2 (AppState.ZOOM, 1) (AppState.SCATTERED, 1)
      (1 / 2) 0 (by decide) (by decide)

end Tree
